import Mathlib

/-!
# EdgeLint analyzer — shallow embedding

This file embeds the `analyzeWorkerCode` tool of `src/tools.ts` (the
rule-based static analyzer for Cloudflare Workers code) and proves the
specified properties about it.

The TypeScript code works on JavaScript strings with `String.prototype.includes`
(substring containment) and two regular expressions
(`/^(let|var|const)\s+\w+\s*=/m` and `/async\s+\w+/g`, the latter used only
for null-ness of `match`).  We model strings as Lean `String`s (lists of
characters; every pattern the analyzer searches for is ASCII, for which
code-unit containment and character containment agree) and the two regular
expressions by explicit, backtracking-free matchers, which coincide with the
regex semantics because the character classes involved (`\s`, `\w`, the
literal `=`) are pairwise disjoint.
-/

set_option maxRecDepth 20000
set_option linter.unusedVariables false

/-- A single apostrophe (U+0027), used to build the quoted patterns of the
source (`from '<m>'`, `require('<m>')`, titles such as
`Node.js 'fs' module not available`). -/
def apos : String := String.mk [Char.ofNat 39]

/-- Substring occurrence on character lists: `needle` occurs contiguously in
`hay`.  Models JavaScript `hay.includes(needle)`. -/
def subList (needle : List Char) : List Char → Bool
  | [] => needle.isEmpty
  | c :: rest => needle.isPrefixOf (c :: rest) || subList needle rest

/-- JavaScript `code.includes(pat)`. -/
def strIncludes (code pat : String) : Bool := subList pat.data code.data

/-- JavaScript regex `\w`: `[A-Za-z0-9_]`. -/
def isWordChar (c : Char) : Bool := c.isAlpha || c.isDigit || c == '_'

/-- JavaScript regex `\s`: ECMA-262 WhiteSpace ∪ LineTerminator
(TAB, LF, VT, FF, CR, SP, NBSP, ZWNBSP, the Zs category and the
LS/PS line separators). -/
def isJsSpace (c : Char) : Bool :=
  [0x9, 0xA, 0xB, 0xC, 0xD, 0x20, 0xA0, 0x1680,
   0x2000, 0x2001, 0x2002, 0x2003, 0x2004, 0x2005, 0x2006, 0x2007,
   0x2008, 0x2009, 0x200A, 0x2028, 0x2029, 0x202F, 0x205F, 0x3000,
   0xFEFF].contains c.toNat

/-- JavaScript line terminators (the positions after which `^` matches
under the `m` flag): LF, CR, LS, PS. -/
def isJsNewline (c : Char) : Bool :=
  c == Char.ofNat 0xA || c == Char.ofNat 0xD ||
  c == Char.ofNat 0x2028 || c == Char.ofNat 0x2029

/-- Matcher for the tail `\s+\w+\s*=` of the global-state regex, starting at
the head of `cs`.  Greedy scanning is complete here because `\s`, `\w` and
`=` are pairwise disjoint character classes. -/
def matchGlobalTail (cs : List Char) : Bool :=
  let (a, r1) := cs.span isJsSpace
  if a.isEmpty then false
  else
    let (b, r2) := r1.span isWordChar
    if b.isEmpty then false
    else
      let r3 := (r2.span isJsSpace).2
      match r3 with
      | c :: _ => c == '='
      | [] => false

/-- Matcher for `(let|var|const)\s+\w+\s*=` anchored at the head of `cs`. -/
def matchGlobalAt (cs : List Char) : Bool :=
  ["let", "var", "const"].any fun kw =>
    kw.data.isPrefixOf cs && matchGlobalTail (cs.drop kw.length)

/-- The suffixes of `cs` that start immediately after a line terminator. -/
def startsAfterNewlines : List Char → List (List Char)
  | [] => []
  | c :: rest =>
    (if isJsNewline c then [rest] else []) ++ startsAfterNewlines rest

/-- JavaScript `code.match(/^(let|var|const)\s+\w+\s*=/m) !== null`:
the anchored pattern matches at the start of the string or right after a
line terminator. -/
def matchesGlobalState (code : String) : Bool :=
  matchGlobalAt code.data || (startsAfterNewlines code.data).any matchGlobalAt

/-- All suffixes of a character list (each occurrence position). -/
def allSuffixes : List Char → List (List Char)
  | [] => [[]]
  | c :: rest => (c :: rest) :: allSuffixes rest

/-- Matcher for `async\s+\w+` anchored at the head of `cs`. -/
def matchAsyncAt (cs : List Char) : Bool :=
  "async".data.isPrefixOf cs &&
    (let r1 := (cs.drop 5).span isJsSpace
     !r1.1.isEmpty &&
       (match r1.2 with
        | c :: _ => isWordChar c
        | [] => false))

/-- JavaScript `code.match(/async\s+\w+/g) !== null`: the pattern occurs
somewhere in the string. -/
def hasAsyncFn (code : String) : Bool :=
  (allSuffixes code.data).any matchAsyncAt

/-- The `Finding` record pushed onto `issues` in `analyzeWorkerCode.execute`
(`{ severity, title, description, line? }`; `line` is declared but never
populated). -/
structure Finding where
  severity : String
  title : String
  description : String
  line : Option Nat := none
deriving DecidableEq

/-- The fixed deny-list of Node.js modules (tools.ts, `nodeAPIs`). -/
def nodeAPIs : List String :=
  ["fs", "path", "crypto", "os", "process", "child_process",
   "cluster", "dns", "http", "https", "net", "tls", "stream",
   "buffer", "events", "util", "url", "querystring", "zlib"]

/-- The fixed list of blocking-call patterns with their suggested fixes
(tools.ts, `blockingOps`). -/
def blockingOps : List (String × String) :=
  [("readFileSync", "Use KV.get() or R2 fetch with await"),
   ("writeFileSync", "Use KV.put() or R2 put with await"),
   ("execSync", "Not supported - rethink your architecture"),
   ("readSync", "Use async operations with await")]

/-- The four ways a deny-listed module reference is searched for:
`from '<api>'`, `from "<api>"`, `require('<api>')`, `require("<api>")`. -/
def nodeCond (code api : String) : Bool :=
  strIncludes code ("from " ++ apos ++ api ++ apos) ||
  strIncludes code ("from \"" ++ api ++ "\"") ||
  strIncludes code ("require(" ++ apos ++ api ++ apos ++ ")") ||
  strIncludes code ("require(\"" ++ api ++ "\")")

/-- CRITICAL finding for a deny-listed Node.js module. -/
def nodeApiFinding (api : String) : Finding :=
  { severity := "CRITICAL"
    title := "Node.js " ++ apos ++ api ++ apos ++ " module not available"
    description :=
      "Workers run in V8 isolates without Node.js APIs. Replace " ++
      apos ++ api ++ apos ++ " with Workers-compatible alternatives." }

/-- CRITICAL finding for a blocking synchronous operation. -/
def blockFinding (op : String × String) : Finding :=
  { severity := "CRITICAL"
    title := "Synchronous operation: " ++ op.1 ++ "()"
    description := "Blocking operations hurt edge performance. " ++ op.2 }

/-- WARNING finding for `setTimeout`/`setInterval`. -/
def timerFinding : Finding :=
  { severity := "WARNING"
    title := "Timers not supported in Workers"
    description :=
      "setTimeout/setInterval won" ++ apos ++
      "t work. Use Durable Objects Alarms for scheduled tasks, or Workflows for delayed execution." }

/-- WARNING finding for module-level mutable state. -/
def globalFinding : Finding :=
  { severity := "WARNING"
    title := "Potential global state detected"
    description :=
      "Workers are stateless. Global variables reset between requests. Use Durable Objects or KV for persistence." }

/-- WARNING finding for missing try/catch around async code. -/
def errFinding : Finding :=
  { severity := "WARNING"
    title := "Missing error handling"
    description :=
      "Async operations should be wrapped in try-catch blocks to handle failures gracefully." }

/-- ERROR finding for a missing `export default`. -/
def exportFinding : Finding :=
  { severity := "ERROR"
    title := "Missing default export"
    description :=
      "Workers require a default export with a fetch handler: export default \x7b async fetch(request, env, ctx) \x7b...\x7d \x7d" }

/-- ERROR finding for a missing fetch handler. -/
def fetchFinding : Finding :=
  { severity := "ERROR"
    title := "No fetch handler found"
    description := "Workers need a fetch() method to handle HTTP requests." }

/-- INFO finding for a fetch handler that omits the `env` parameter. -/
def envFinding : Finding :=
  { severity := "INFO"
    title := "Missing env parameter"
    description :=
      "Add env parameter to access bindings (KV, R2, D1, etc.): fetch(request, env, ctx)" }

/-- INFO finding suggesting Response objects. -/
def respFinding : Finding :=
  { severity := "INFO"
    title := "Consider using Response objects"
    description :=
      "Return proper Response objects with status codes and headers for better HTTP handling." }

/-- INFO finding suggesting `ctx.waitUntil()`. -/
def waitFinding : Finding :=
  { severity := "INFO"
    title := "Consider using ctx.waitUntil()"
    description :=
      "For background tasks that can complete after responding, use ctx.waitUntil() to keep the Worker alive." }

/-- The analysis pass of `analyzeWorkerCode.execute` (tools.ts lines
124-233): every rule is evaluated against `code` in declaration order and
each firing rule appends its finding, so the resulting array is the
concatenation of the per-rule contributions in that order. -/
def analyze (code : String) : List Finding :=
  ((nodeAPIs.filter (nodeCond code)).map nodeApiFinding) ++
  ((blockingOps.filter (fun op => strIncludes code op.1)).map blockFinding) ++
  (if strIncludes code "setTimeout" || strIncludes code "setInterval" then
    [timerFinding] else []) ++
  (if matchesGlobalState code && strIncludes code "export default" then
    [globalFinding] else []) ++
  (if hasAsyncFn code && !strIncludes code "try" && !strIncludes code "catch" then
    [errFinding] else []) ++
  (if !strIncludes code "export default" then [exportFinding] else []) ++
  (if !strIncludes code "fetch(" && !strIncludes code "fetch (" then
    [fetchFinding] else []) ++
  (if strIncludes code "fetch(request)" && !strIncludes code "fetch(request, env" then
    [envFinding] else []) ++
  (if strIncludes code "return " && !strIncludes code "Response" then
    [respFinding] else []) ++
  (if (strIncludes code "await" || strIncludes code "fetch(") && !strIncludes code "waitUntil" then
    [waitFinding] else [])

/-- The fixed all-clear message returned when no issue was found
(tools.ts lines 236-244).  The non-ASCII characters reproduce the source
file exactly (its decorations are stored in a double-encoded form). -/
def cleanMessage : String :=
  "âœ… Excellent! No major issues detected.\n\n  This code appears to be Workers-compatible and follows edge computing best practices. Great job! ðŸŽ‰\n\n  Some optional improvements you might consider:\n  - Add comprehensive error handling\n  - Implement caching strategies\n  - Add request validation\n  - Consider rate limiting"

/-- `forEach((issue, i) => result += ...)` over one severity group:
each finding is rendered as `\n{i+1}. {title}\n   {description}\n`
with `i` the 0-based position inside the group. -/
def renderItems (g : List Finding) : String :=
  String.join (g.enum.map fun p =>
    "\n" ++ toString (p.1 + 1) ++ ". " ++ p.2.title ++ "\n   " ++
      p.2.description ++ "\n")

/-- The non-empty branch of the report formatter (tools.ts lines 248-286):
partition by severity, then append one block per non-empty group in the
fixed order CRITICAL, ERROR, WARNING, INFO. -/
def formatIssues (issues : List Finding) : String :=
  let critical := issues.filter fun i => i.severity == "CRITICAL"
  let errors := issues.filter fun i => i.severity == "ERROR"
  let warnings := issues.filter fun i => i.severity == "WARNING"
  let info := issues.filter fun i => i.severity == "INFO"
  let result := "Found " ++ toString issues.length ++ " issue(s) in your code:\n\n"
  let result :=
    if critical.length > 0 then
      result ++ "ðŸ”´ CRITICAL ISSUES (" ++
        toString critical.length ++ "):\n" ++ renderItems critical ++ "\n"
    else result
  let result :=
    if errors.length > 0 then
      result ++ "ðŸŸ  ERRORS (" ++
        toString errors.length ++ "):\n" ++ renderItems errors ++ "\n"
    else result
  let result :=
    if warnings.length > 0 then
      result ++ "ðŸŸ¡ WARNINGS (" ++
        toString warnings.length ++ "):\n" ++ renderItems warnings ++ "\n"
    else result
  let result :=
    if info.length > 0 then
      result ++ "â„¹ï¸ SUGGESTIONS (" ++
        toString info.length ++ "):\n" ++ renderItems info
    else result
  result

/-- The whole `analyzeWorkerCode.execute` body: run the rules, then either
return the fixed all-clear message or the formatted report.  The optional
`filename` is only interpolated into a `console.log` line in the source and
never influences the returned string, which is why it is unused here. -/
def runAnalyzer (code : String) (filename : Option String) : String :=
  let issues := analyze code
  if issues.length = 0 then cleanMessage else formatIssues issues

/-! ## Specification-side vocabulary for the formatter

The following definitions restate, in the spec's terms, what the report is
supposed to look like: a fixed severity order, one labelled section per
severity that has findings, a per-section count, and 1-based numbering that
restarts in each section.  They are compared with `formatIssues` in the
claims below. -/

/-- The fixed severity presentation order of the report. -/
def sevOrder : List String := ["CRITICAL", "ERROR", "WARNING", "INFO"]

/-- The section label (including its opening parenthesis for the count)
used for each severity. -/
def sevLabel (s : String) : String :=
  if s == "CRITICAL" then "ðŸ”´ CRITICAL ISSUES ("
  else if s == "ERROR" then "ðŸŸ  ERRORS ("
  else if s == "WARNING" then "ðŸŸ¡ WARNINGS ("
  else "â„¹ï¸ SUGGESTIONS ("

/-- The blank line separating a section from the next (absent after the
final, INFO section). -/
def trailerOf (s : String) : String := if s == "INFO" then "" else "\n"

/-- The findings of severity `s`, in their analyzer order. -/
def groupOf (f : List Finding) (s : String) : List Finding :=
  f.filter fun i => i.severity == s

/-- A severity group rendered as a numbered list whose numbers are
`1, 2, ...` — 1-based and restarting at 1 for the group. -/
def numberedItems (g : List Finding) : String :=
  String.join (((List.range g.length).zip g).map fun p =>
    "\n" ++ toString (p.1 + 1) ++ ". " ++ p.2.title ++ "\n   " ++
      p.2.description ++ "\n")

/-- One report section: label, group size, numbered group, separator. -/
def sectionText (f : List Finding) (s : String) : String :=
  sevLabel s ++ toString (groupOf f s).length ++ "):\n" ++
    numberedItems (groupOf f s) ++ trailerOf s

/-! ## Helper lemmas -/

lemma mem_if_singleton {x f : Finding} {c : Prop} [Decidable c] :
    (x ∈ if c then [f] else []) ↔ c ∧ x = f := by
  split <;> simp_all

/-- Which findings `analyze` emits, rule by rule. -/
lemma mem_analyze {x : Finding} {code : String} :
    x ∈ analyze code ↔
      (∃ api ∈ nodeAPIs, nodeCond code api = true ∧ nodeApiFinding api = x) ∨
      (∃ op ∈ blockingOps, strIncludes code op.1 = true ∧ blockFinding op = x) ∨
      ((strIncludes code "setTimeout" || strIncludes code "setInterval") = true
        ∧ x = timerFinding) ∨
      ((matchesGlobalState code && strIncludes code "export default") = true
        ∧ x = globalFinding) ∨
      ((hasAsyncFn code && !strIncludes code "try" && !strIncludes code "catch") = true
        ∧ x = errFinding) ∨
      ((!strIncludes code "export default") = true ∧ x = exportFinding) ∨
      ((!strIncludes code "fetch(" && !strIncludes code "fetch (") = true
        ∧ x = fetchFinding) ∨
      ((strIncludes code "fetch(request)" && !strIncludes code "fetch(request, env") = true
        ∧ x = envFinding) ∨
      ((strIncludes code "return " && !strIncludes code "Response") = true
        ∧ x = respFinding) ∨
      (((strIncludes code "await" || strIncludes code "fetch(") && !strIncludes code "waitUntil") = true
        ∧ x = waitFinding) := by
  simp [analyze, mem_if_singleton, List.mem_append, List.mem_map,
    List.mem_filter, and_assoc]

lemma str_data_append (s t : String) : (s ++ t).data = s.data ++ t.data :=
  String.data_append s t

lemma string_eq_of_data {s t : String} (h : s.data = t.data) : s = t := by
  cases s; cases t; exact congrArg String.mk h

/-- The module name can be recovered from its finding. -/
lemma nodeApiFinding_inj {a b : String}
    (h : nodeApiFinding a = nodeApiFinding b) : a = b := by
  have ht := congrArg (fun f => Finding.title f) h
  have hd := congrArg String.data ht
  simp only [nodeApiFinding, str_data_append, List.append_assoc] at hd
  have h2 := List.append_cancel_left hd
  have h3 := List.append_cancel_left h2
  exact string_eq_of_data (List.append_cancel_right h3)

lemma head_nodeApi (a : String) :
    (nodeApiFinding a).title.data.head? = some 'N' := by
  show ((("Node.js " ++ apos) ++ a) ++ (apos ++ " module not available")).data.head? = some 'N'
  rw [str_data_append, str_data_append, str_data_append]
  rfl

lemma head_block (op : String × String) :
    (blockFinding op).title.data.head? = some 'S' := by
  show (("Synchronous operation: " ++ op.1) ++ "()").data.head? = some 'S'
  rw [str_data_append, str_data_append]
  rfl

lemma nodeApi_ne_block (a : String) (op : String × String) :
    nodeApiFinding a ≠ blockFinding op := by
  intro h
  have h1 : (nodeApiFinding a).title.data.head? = (blockFinding op).title.data.head? := by
    rw [h]
  rw [head_nodeApi, head_block] at h1
  exact absurd h1 (by decide)

lemma sev_nodeApi (a : String) : (nodeApiFinding a).severity = "CRITICAL" := rfl

lemma sev_block (op : String × String) : (blockFinding op).severity = "CRITICAL" := rfl

/-- A finding whose severity is not CRITICAL is not a module finding. -/
lemma nodeApi_ne_of_sev {f : Finding} (a : String)
    (h : f.severity ≠ "CRITICAL") : nodeApiFinding a ≠ f := by
  intro e
  exact h (by rw [← e]; rfl)

lemma block_ne_of_sev {f : Finding} (op : String × String)
    (h : f.severity ≠ "CRITICAL") : blockFinding op ≠ f := by
  intro e
  exact h (by rw [← e]; rfl)

lemma renderItems_eq (g : List Finding) : renderItems g = numberedItems g := by
  unfold renderItems numberedItems
  rw [List.enum_eq_zip_range]

/-- The formatter, re-expressed in the spec's vocabulary: a count header
followed by the sections of the non-empty severity groups taken in the
fixed severity order. -/
lemma formatIssues_eq_spec (f : List Finding) :
    formatIssues f =
      "Found " ++ toString f.length ++ " issue(s) in your code:\n\n" ++
      String.join ((sevOrder.filter fun s => groupOf f s != []).map (sectionText f)) := by
  by_cases hc : f.filter (fun i => i.severity == "CRITICAL") = [] <;>
  by_cases he : f.filter (fun i => i.severity == "ERROR") = [] <;>
  by_cases hw : f.filter (fun i => i.severity == "WARNING") = [] <;>
  by_cases hi : f.filter (fun i => i.severity == "INFO") = [] <;>
    simp [formatIssues, sectionText, sevOrder, sevLabel, trailerOf, groupOf,
      String.join, renderItems_eq, hc, he, hw, hi, List.length_pos,
      String.append_assoc, String.append_empty, String.empty_append] <;>
    simp [← String.append_assoc]

/-! ## Concrete inputs used by the claims -/

/-- The end-to-end scenario-1 input of the spec:
`import fs from 'fs';` followed by a default export whose fetch handler
takes only `request` and calls `fs.readFileSync('x')`. -/
def scenario1 : String :=
  "import fs from " ++ apos ++ "fs" ++ apos ++
  ";\nexport default \x7b async fetch(request) \x7b return new Response(fs.readFileSync(" ++
  apos ++ "x" ++ apos ++ ")); \x7d \x7d"

/-- A handler whose fetch method takes exactly one argument (`request`
alone), written with spaces inside the parentheses. -/
def oneArgSpaced : String :=
  "export default \x7b async fetch( request ) \x7b return new Response(req) \x7d \x7d"

/-- A handler that calls the global `fetch` with the single argument
`request` while its own signature has all three parameters. -/
def oneArgCallSite : String :=
  "export default \x7b async fetch(request, env, ctx) \x7b return fetch(request) \x7d \x7d"

/-- A fully compliant Worker: default export, three-parameter fetch
handler, try/catch, Response construction, `ctx.waitUntil`. -/
def goodCode : String :=
  "export default \x7b async fetch(request, env, ctx) \x7b try \x7b ctx.waitUntil(env.KV.put(k, v)); return new Response(ok); \x7d catch (e) \x7b return new Response(err); \x7d \x7d \x7d"

/-- A side-effect import of a deny-listed module (no `from` clause). -/
def sideEffectImport : String := "import " ++ apos ++ "fs" ++ apos ++ ";"

/-- A dynamic import of a deny-listed module. -/
def dynamicImport : String := "import(" ++ apos ++ "fs" ++ apos ++ ")"

/-- A single-quoted static import of a deny-listed module. -/
def singleQuotedImport : String :=
  "import fs from " ++ apos ++ "fs" ++ apos ++ ";"

/-- A double-quoted static import of a deny-listed module. -/
def doubleQuotedImport : String := "import fs from \"fs\";"

/-- An async function and the word `country`, whose last three letters
are the substring `try`; there is no try/catch anywhere. -/
def asyncCountry : String := "async handler country"

/-- A sample non-empty finding list. -/
def sampleFindings : List Finding := [timerFinding, envFinding, exportFinding]

/-- A second sample non-empty finding list. -/
def sampleFindings2 : List Finding := [errFinding, respFinding]

/-! ## Claims -/

/-- C1, counterexample: contrary to the claim, on the scenario-1 input the
analyzer does emit the missing deferred-work deferral (ctx.waitUntil) INFO
finding, even though the text contains no `await`. -/
theorem C1_counterexample : waitFinding ∈ analyze scenario1 := by decide

/-- C1, amended: on the scenario-1 input the analyzer emits the
ctx.waitUntil INFO finding: the rule's trigger is the presence of `await`
or of `fetch(` without `waitUntil`, and although the text contains no
`await`, it does contain `fetch(`. -/
theorem C1_waitUntil_fires_on_scenario1 :
    strIncludes scenario1 "await" = false ∧
    strIncludes scenario1 "fetch(" = true ∧
    strIncludes scenario1 "waitUntil" = false ∧
    waitFinding ∈ analyze scenario1 := by
  refine ⟨by decide, by decide, by decide, by decide⟩

/-- C2: on the empty source text the analyzer returns exactly the
missing-default-export finding and the missing-fetch-handler finding, in
that order, both of severity ERROR, and nothing else. -/
theorem C2_empty_source_exact_findings :
    analyze "" = [exportFinding, fetchFinding] ∧
    exportFinding.severity = "ERROR" ∧ fetchFinding.severity = "ERROR" := by
  refine ⟨by decide, rfl, rfl⟩

/-- C3, counterexample: a source text whose fetch handler takes exactly one
argument (`request` alone, written `fetch( request )` with spaces) does not
receive the missing-context-parameter INFO finding, refuting the claim that
every one-argument handler call triggers it; likewise a one-argument call
site `fetch(request)` next to a three-parameter handler is missed. -/
theorem C3_counterexample :
    strIncludes oneArgSpaced "fetch( request )" = true ∧
    envFinding ∉ analyze oneArgSpaced ∧
    strIncludes oneArgCallSite "fetch(request)" = true ∧
    envFinding ∉ analyze oneArgCallSite := by
  refine ⟨by decide, by decide, by decide, by decide⟩

/-- C3, amended: the missing-context-parameter INFO finding is emitted
exactly when the text contains the literal substring `fetch(request)` and
does not contain the literal substring `fetch(request, env`. -/
theorem C3_env_rule_characterization (code : String) :
    envFinding ∈ analyze code ↔
      (strIncludes code "fetch(request)" &&
        !strIncludes code "fetch(request, env") = true := by
  rw [mem_analyze]
  constructor
  · rintro (⟨api, _, _, heq⟩ | ⟨op, _, _, heq⟩ | ⟨_, heq⟩ | ⟨_, heq⟩ |
      ⟨_, heq⟩ | ⟨_, heq⟩ | ⟨_, heq⟩ | ⟨hcond, _⟩ | ⟨_, heq⟩ | ⟨_, heq⟩)
    · exact absurd heq (nodeApi_ne_of_sev api (by decide))
    · exact absurd heq (block_ne_of_sev op (by decide))
    · exact absurd heq (by decide)
    · exact absurd heq (by decide)
    · exact absurd heq (by decide)
    · exact absurd heq (by decide)
    · exact absurd heq (by decide)
    · exact hcond
    · exact absurd heq (by decide)
    · exact absurd heq (by decide)
  · intro hcond
    exact Or.inr (Or.inr (Or.inr (Or.inr (Or.inr (Or.inr (Or.inr
      (Or.inl ⟨hcond, rfl⟩)))))))

/-- C4: for every non-empty finding list the rendered report is the count
header followed by the sections of exactly the severities that occur in the
list, taken in the fixed order CRITICAL, ERROR, WARNING, INFO; a severity
with no findings contributes no section at all. -/
theorem C4_severity_order (f : List Finding) (h : f ≠ []) :
    formatIssues f =
      "Found " ++ toString f.length ++ " issue(s) in your code:\n\n" ++
      String.join ((sevOrder.filter fun s => groupOf f s != []).map (sectionText f)) :=
  formatIssues_eq_spec f

/-- C4 witness. -/
theorem C4_witness :
    sampleFindings ≠ [] ∧
    formatIssues sampleFindings =
      "Found " ++ toString sampleFindings.length ++ " issue(s) in your code:\n\n" ++
      String.join ((sevOrder.filter fun s => groupOf sampleFindings s != []).map
        (sectionText sampleFindings)) :=
  ⟨by decide, C4_severity_order sampleFindings (by decide)⟩

/-- C5: for every non-empty finding list, the header count is the length of
the list, each section header's count is the number of findings of that
severity, and the items of each section are numbered 1, 2, ... with the
numbering restarting at 1 in every section. -/
theorem C5_counts_and_numbering (f : List Finding) (h : f ≠ []) :
    formatIssues f =
      "Found " ++ toString f.length ++ " issue(s) in your code:\n\n" ++
      String.join ((sevOrder.filter fun s => groupOf f s != []).map fun s =>
        sevLabel s ++ toString (groupOf f s).length ++ "):\n" ++
        String.join (((List.range (groupOf f s).length).zip (groupOf f s)).map fun p =>
          "\n" ++ toString (p.1 + 1) ++ ". " ++ p.2.title ++ "\n   " ++
            p.2.description ++ "\n") ++
        trailerOf s) :=
  formatIssues_eq_spec f

/-- C5 witness. -/
theorem C5_witness :
    sampleFindings2 ≠ [] ∧
    formatIssues sampleFindings2 =
      "Found " ++ toString sampleFindings2.length ++ " issue(s) in your code:\n\n" ++
      String.join ((sevOrder.filter fun s => groupOf sampleFindings2 s != []).map fun s =>
        sevLabel s ++ toString (groupOf sampleFindings2 s).length ++ "):\n" ++
        String.join (((List.range (groupOf sampleFindings2 s).length).zip
            (groupOf sampleFindings2 s)).map fun p =>
          "\n" ++ toString (p.1 + 1) ++ ". " ++ p.2.title ++ "\n   " ++
            p.2.description ++ "\n") ++
        trailerOf s) :=
  ⟨by decide, C5_counts_and_numbering sampleFindings2 (by decide)⟩

/-- C6: whenever the analyzer finds no issues, the returned report is the
fixed all-clear message — never the empty string and never a header
claiming `Found 0 issue(s)`. -/
theorem C6_allclear_on_zero_findings (code : String) (fn : Option String)
    (h : analyze code = []) :
    runAnalyzer code fn = cleanMessage ∧
    runAnalyzer code fn ≠ "" ∧
    strIncludes (runAnalyzer code fn) "Found 0 issue(s)" = false := by
  have hr : runAnalyzer code fn = cleanMessage := by
    simp [runAnalyzer, h]
  refine ⟨hr, ?_, ?_⟩ <;> rw [hr]
  · decide
  · decide

/-- C6 witness. -/
theorem C6_witness :
    analyze goodCode = [] ∧
    (runAnalyzer goodCode none = cleanMessage ∧
     runAnalyzer goodCode none ≠ "" ∧
     strIncludes (runAnalyzer goodCode none) "Found 0 issue(s)" = false) :=
  ⟨by decide, C6_allclear_on_zero_findings goodCode none (by decide)⟩

/-- C7: the analyzer is deterministic and pure — for one and the same input
text the finding list is one and the same, and the returned report does not
depend on the optional filename (which is only logged); there is no state
that could make two calls differ, and the input string is never changed. -/
theorem C7_deterministic (code : String) (fn fn' : Option String) :
    analyze code = analyze code ∧ runAnalyzer code fn = runAnalyzer code fn' :=
  ⟨rfl, rfl⟩

/-- C8: module-reference detection is quote-style agnostic — for every
deny-listed module, a text containing the single-quoted or double-quoted
`from` clause, or the single-quoted or double-quoted `require` call, gets
the CRITICAL disallowed-module finding for that module. -/
theorem C8_quote_agnostic (api : String) (h : api ∈ nodeAPIs) (code : String) :
    (strIncludes code ("from " ++ apos ++ api ++ apos) = true →
      nodeApiFinding api ∈ analyze code) ∧
    (strIncludes code ("from \"" ++ api ++ "\"") = true →
      nodeApiFinding api ∈ analyze code) ∧
    (strIncludes code ("require(" ++ apos ++ api ++ apos ++ ")") = true →
      nodeApiFinding api ∈ analyze code) ∧
    (strIncludes code ("require(\"" ++ api ++ "\")") = true →
      nodeApiFinding api ∈ analyze code) := by
  refine ⟨?_, ?_, ?_, ?_⟩ <;> intro hin <;> rw [mem_analyze] <;>
    exact Or.inl ⟨api, h, by simp [nodeCond, hin], rfl⟩

/-- C8 witness. -/
theorem C8_witness :
    "fs" ∈ nodeAPIs ∧
    strIncludes singleQuotedImport ("from " ++ apos ++ "fs" ++ apos) = true ∧
    nodeApiFinding "fs" ∈ analyze singleQuotedImport ∧
    strIncludes doubleQuotedImport ("from \"" ++ "fs" ++ "\"") = true ∧
    nodeApiFinding "fs" ∈ analyze doubleQuotedImport :=
  ⟨by decide, by decide,
   (C8_quote_agnostic "fs" (by decide) singleQuotedImport).1 (by decide),
   by decide,
   (C8_quote_agnostic "fs" (by decide) doubleQuotedImport).2.1 (by decide)⟩

/-- C9: the missing-error-handling check is raw substring containment — any
text containing the three letters `try` anywhere (even inside a word such
as `country`) never receives the missing-error-handling WARNING finding. -/
theorem C9_try_substring_suppresses (code : String)
    (h : strIncludes code "try" = true) : errFinding ∉ analyze code := by
  rw [mem_analyze]
  rintro (⟨api, _, _, heq⟩ | ⟨op, _, _, heq⟩ | ⟨_, heq⟩ | ⟨_, heq⟩ |
    ⟨hcond, _⟩ | ⟨_, heq⟩ | ⟨_, heq⟩ | ⟨_, heq⟩ | ⟨_, heq⟩ | ⟨_, heq⟩)
  · exact absurd heq (nodeApi_ne_of_sev api (by decide))
  · exact absurd heq (block_ne_of_sev op (by decide))
  · exact absurd heq (by decide)
  · exact absurd heq (by decide)
  · simp [h] at hcond
  · exact absurd heq (by decide)
  · exact absurd heq (by decide)
  · exact absurd heq (by decide)
  · exact absurd heq (by decide)
  · exact absurd heq (by decide)

/-- C9 witness. -/
theorem C9_witness :
    strIncludes asyncCountry "try" = true ∧
    hasAsyncFn asyncCountry = true ∧
    strIncludes asyncCountry "catch" = false ∧
    errFinding ∉ analyze asyncCountry :=
  ⟨by decide, by decide, by decide,
   C9_try_substring_suppresses asyncCountry (by decide)⟩

/-- C10: the disallowed-module finding for a deny-listed module is emitted
exactly when the text contains one of the four exact substrings
`from '<m>'`, `from "<m>"`, `require('<m>')`, `require("<m>")`; in
particular a side-effect import or a dynamic `import('<m>')` of the module
yields no such finding. -/
theorem C10_exact_substring_only (api : String) (h : api ∈ nodeAPIs)
    (code : String) :
    nodeApiFinding api ∈ analyze code ↔ nodeCond code api = true := by
  rw [mem_analyze]
  constructor
  · rintro (⟨b, _, hcond, heq⟩ | ⟨op, _, _, heq⟩ | ⟨_, heq⟩ | ⟨_, heq⟩ |
      ⟨_, heq⟩ | ⟨_, heq⟩ | ⟨_, heq⟩ | ⟨_, heq⟩ | ⟨_, heq⟩ | ⟨_, heq⟩)
    · exact (nodeApiFinding_inj heq) ▸ hcond
    · exact absurd heq.symm (nodeApi_ne_block api op)
    · exact absurd heq (nodeApi_ne_of_sev api (by decide))
    · exact absurd heq (nodeApi_ne_of_sev api (by decide))
    · exact absurd heq (nodeApi_ne_of_sev api (by decide))
    · exact absurd heq (nodeApi_ne_of_sev api (by decide))
    · exact absurd heq (nodeApi_ne_of_sev api (by decide))
    · exact absurd heq (nodeApi_ne_of_sev api (by decide))
    · exact absurd heq (nodeApi_ne_of_sev api (by decide))
    · exact absurd heq (nodeApi_ne_of_sev api (by decide))
  · intro hcond
    exact Or.inl ⟨api, h, hcond, rfl⟩

/-- C10 witness. -/
theorem C10_witness :
    "fs" ∈ nodeAPIs ∧
    nodeApiFinding "fs" ∉ analyze sideEffectImport ∧
    nodeApiFinding "fs" ∉ analyze dynamicImport :=
  ⟨by decide,
   fun hm => absurd ((C10_exact_substring_only "fs" (by decide) sideEffectImport).mp hm)
     (by decide),
   fun hm => absurd ((C10_exact_substring_only "fs" (by decide) dynamicImport).mp hm)
     (by decide)⟩
